import Mathlib

/-!
Shallow embedding of TG_WebApp's client scripts and (where the server
engine is absent from the repository) the spec's freshness evaluator.

Sources embedded:
- the device reporting script (IIFE with `send`, `startWatch`, `stopWatch`
  and the 10-second throttle in the `watchPosition` success callback);
- the map dashboard (`loadEmployees`, `showTrack`, `window.onload` polling);
- the list dashboard `manager.js` (`fetchEmployees`, `renderList`,
  `applyFilters`, `refresh`, the `DOMContentLoaded` polling setup).

JavaScript numbers that the embedded code only ever copies or compares are
modelled as `Int`; strings as Lean `String` with character-wise helpers
(`jsToLower`, `jsTrim`, `jsIncludes`) standing in for `toLowerCase`,
`trim` and `includes`.
-/

namespace TGWebApp

/-! ### Device reporting script (`send`, `startWatch`) -/

/-- The body of the `FormData` built by `send(lat, lon, acc)`:
`form.append("lat", String(lat)); form.append("lon", String(lon));
if (typeof acc === "number") form.append("acc", String(acc));`.
`acc = none` models `acc` not being a number (absent accuracy).
No timestamp field is ever appended (the source comment notes the server
assigns its own). -/
def sendForm (lat lon : Int) (acc : Option Int) : List (String × String) :=
  [("lat", toString lat), ("lon", toString lon)] ++
    (match acc with
     | some a => [("acc", toString a)]
     | none => [])

/-- Outcome of the `fetch` performed inside `send`'s `try` block. -/
inductive FetchResult where
  | ok
  | netError (msg : String)
deriving DecidableEq

/-- `send` wraps its `fetch` in `try { ... } catch (e) { /* silent */ }`:
whatever the fetch outcome, `send` returns normally. -/
def sendResult : FetchResult → Except String Unit
  | .ok => Except.ok ()
  | .netError _ => Except.ok ()

/-- The geolocation error callback `(err) => { /* commented-out warn */ }`
does nothing: the script state (`watchId`, `lastSent`) is unchanged. -/
def geoErrorCallback (_err : String) (watchId : Option Nat) (lastSent : Int) :
    Option Nat × Int :=
  (watchId, lastSent)

/-- `startWatch`: `if (!navigator.geolocation || watchId !== null) return;`
then registers a watch. The result is the new `watchId`. -/
def startWatch (geoAvailable : Bool) (watchId : Option Nat) (newId : Nat) :
    Option Nat :=
  if !geoAvailable || watchId.isSome then watchId else some newId

/-- The throttle in the `watchPosition` success callback:
`if (now - lastSent < 10_000) return; lastSent = now; send(...)`.
Given the initial `lastSent` and the sequence of `Date.now()` values seen by
successive callbacks, this returns the times at which `send` is invoked. -/
def sendTimes (lastSent : Int) : List Int → List Int
  | [] => []
  | now :: rest =>
    if now - lastSent < 10000 then sendTimes lastSent rest
    else now :: sendTimes now rest

/-! ### Spec-modelled freshness evaluator -/

/-- Freshness classification values. -/
inductive Status where
  | fresh
  | stale
  | offline
deriving DecidableEq

/-- Position of a status along the fresh → stale → offline progression. -/
def statusRank : Status → Nat
  | .fresh => 0
  | .stale => 1
  | .offline => 2

/-- Modelled from the spec: the server-side Freshness Evaluator
`classify(now, last_timestamp)` is not in the repository sources; per the
spec it returns `fresh` when `now − last_timestamp ≤ T_fresh`, `stale` when
`T_fresh < now − last_timestamp ≤ T_offline`, and `offline` when
`now − last_timestamp > T_offline`. -/
def classify (Tfresh Toffline now t : Int) : Status :=
  if now - t ≤ Tfresh then .fresh
  else if now - t ≤ Toffline then .stale
  else .offline

/-! ### Map dashboard (`showTrack`, polling) -/

/-- One point of a `/api/online/track` response. -/
structure TrackPoint where
  lat : Int
  lon : Int
deriving DecidableEq

/-- Leaflet map contents observable after the script runs: the single
track polyline (a global) and the marker layer keyed by employee id. -/
structure MapState where
  polyline : Option (List (Int × Int))
  markers : List (String × (Int × Int))
deriving DecidableEq

/-- `if (markers[employee_id]) map.removeLayer(markers[employee_id])`:
the selected identity's marker layer disappears from the map. -/
def removeMarker (id : String) (ms : List (String × (Int × Int))) :
    List (String × (Int × Int)) :=
  ms.filter fun m => m.1 != id

/-- `latlngs[latlngs.length - 1]` on the nonempty list `p :: ps`. -/
def lastPoint : TrackPoint → List TrackPoint → TrackPoint
  | p, [] => p
  | _, q :: rest => lastPoint q rest

/-- `showTrack(employee_id)` applied to the decoded `data.points` and the
current map state: it removes the old polyline and the identity's old
marker, returns if the response has no points, and otherwise draws
`L.polyline(data.points.map(p => [p.lat, p.lon]))` plus a marker at the
last vertex. -/
def showTrack (id : String) (points : List TrackPoint) (st : MapState) :
    MapState :=
  match points with
  | [] => { polyline := none, markers := removeMarker id st.markers }
  | p :: ps =>
    let latlngs := (p :: ps).map fun q => (q.lat, q.lon)
    { polyline := some latlngs,
      markers :=
        (id, ((lastPoint p ps).lat, (lastPoint p ps).lon)) ::
          removeMarker id st.markers }

/-- An HTTP request issued by a dashboard script; `fetch(url)` with no
options issues a GET. -/
structure Request where
  method : String
  url : String
deriving DecidableEq

/-- The one request the list dashboard's `refresh` path issues:
`fetch('/api/online/employees')` inside `fetchEmployees`. -/
def fetchEmployeesRequest : Request :=
  { method := "GET", url := "/api/online/employees" }

/-- The one request the map dashboard's `loadEmployees` issues:
`fetch('/api/online/employees')`. -/
def loadEmployeesRequest : Request :=
  { method := "GET", url := "/api/online/employees" }

/-- `setInterval(refresh, 15000)` in `manager.js`. -/
def listDashboardPollIntervalMs : Nat := 15000

/-- `setInterval(loadEmployees, 10000)` in the map dashboard. -/
def mapDashboardPollIntervalMs : Nat := 10000

/-- Requests issued per tick of the list dashboard's polling path. -/
def listDashboardPollRequests : List Request := [fetchEmployeesRequest]

/-- Requests issued per tick of the map dashboard's polling path. -/
def mapDashboardPollRequests : List Request := [loadEmployeesRequest]

/-! ### List dashboard (`manager.js`) -/

/-- One roster entry as consumed by `manager.js` (`/api/online/employees`). -/
structure Emp where
  employee_id : String
  fresh_status : String
  last_ts : Int
  last_lat : Int
  last_lon : Int
  last_accuracy : Option Int
deriving DecidableEq

/-- Character-wise lowercasing, standing in for `String.toLowerCase()`. -/
def jsToLower (s : String) : String := ⟨s.data.map Char.toLower⟩

/-- Drop leading and trailing whitespace from a character list. -/
def trimCharList (l : List Char) : List Char :=
  ((l.dropWhile (·.isWhitespace)).reverse.dropWhile (·.isWhitespace)).reverse

/-- `String.trim()` on the model strings. -/
def jsTrim (s : String) : String := ⟨trimCharList s.data⟩

/-- `s.includes(q)` : `q` occurs as a contiguous substring of `s`. -/
def jsIncludes (s q : String) : Bool := decide (q.data <:+: s.data)

/-- `applyFilters(items)` from `manager.js`, with the two DOM reads
(`status-filter`'s value and `search`'s value) passed explicitly:
`const q = (search || '').trim().toLowerCase();`
`items.filter(e => ((status === 'all') || (e.fresh_status === status)) &&`
`(!q || e.employee_id.toLowerCase().includes(q)))`. -/
def applyFilters (status search : String) (items : List Emp) : List Emp :=
  let q := jsToLower (jsTrim search)
  items.filter fun e =>
    ((status == "all") || (e.fresh_status == status)) &&
    ((q == "") || jsIncludes (jsToLower e.employee_id) q)

/-- The accuracy figure `renderList` prints in a card's meta line:
`Math.round(e.last_accuracy || 0)`. Accuracies are modelled as integers,
on which `Math.round` is the identity; `|| 0` maps an absent value to 0. -/
def renderedAccuracy (last_accuracy : Option Int) : Int :=
  last_accuracy.getD 0

/-- What the employees container shows after `renderList` or the catch
branch of `refresh` runs. -/
inductive View where
  | emptyState
  | cards (items : List Emp)
  | errorBanner
deriving DecidableEq

/-- `renderList(items)`: the 'no data today' empty state for an empty
list, otherwise one card per entry in order. -/
def renderListView : List Emp → View
  | [] => .emptyState
  | items => .cards items

/-- Outcome of `fetch('/api/online/employees')` as seen by
`fetchEmployees`: the fetch itself may throw, otherwise the response
carries `r.ok` and the (possibly throwing) `r.json()` result. -/
inductive FetchOutcome where
  | netFail (msg : String)
  | resp (ok : Bool) (json : Except String (List Emp))

/-- `fetchEmployees()`: `if (!r.ok) return []; return await r.json();`
with thrown errors propagated via `Except.error`. -/
def fetchEmployees : FetchOutcome → Except String (List Emp)
  | .netFail msg => .error msg
  | .resp ok json => if !ok then .ok [] else json

/-- `refresh()`: `try { renderList(applyFilters(await fetchEmployees())) }`
`catch { show the load-error banner }`. -/
def refreshView (o : FetchOutcome) (status search : String) : View :=
  match fetchEmployees o with
  | .ok data => renderListView (applyFilters status search data)
  | .error _ => .errorBanner

/-! ### Theorems -/

/-- Every time at which the throttled callback actually sends is at least
10 000 ms after the `lastSent` value it started from. -/
theorem sendTimes_lower_bound (times : List Int) :
    ∀ lastSent t, t ∈ sendTimes lastSent times → lastSent + 10000 ≤ t := by
  induction times with
  | nil => intro lastSent t h; simp [sendTimes] at h
  | cons now rest ih =>
    intro lastSent t h
    by_cases hc : now - lastSent < 10000
    · rw [sendTimes, if_pos hc] at h
      exact ih lastSent t h
    · rw [sendTimes, if_neg hc] at h
      rcases List.mem_cons.mp h with rfl | hmem
      · omega
      · have := ih now t hmem
        omega

/-- C1: a geolocation callback firing less than 10 000 ms after the last
recorded send time submits nothing, and any two submissions in a callback
sequence are at least 10 000 ms apart, so each 10-second window holds at
most one ingestion request. -/
theorem startWatch_throttle_C1 :
    (∀ lastSent now rest, now - lastSent < 10000 →
      sendTimes lastSent (now :: rest) = sendTimes lastSent rest) ∧
    (∀ lastSent times,
      List.Pairwise (fun t1 t2 => t1 + 10000 ≤ t2) (sendTimes lastSent times)) := by
  constructor
  · intro lastSent now rest h
    rw [sendTimes, if_pos h]
  · intro lastSent times
    induction times generalizing lastSent with
    | nil => simp [sendTimes]
    | cons now rest ih =>
      by_cases hc : now - lastSent < 10000
      · rw [sendTimes, if_pos hc]
        exact ih lastSent
      · rw [sendTimes, if_neg hc]
        refine List.Pairwise.cons ?_ (ih now)
        intro t ht
        have := sendTimes_lower_bound rest now t ht
        omega

/-- Witness for C1: a callback 5 s after the last send is dropped. -/
theorem startWatch_throttle_C1_witness :
    sendTimes 20000 (25000 :: [31000]) = sendTimes 20000 [31000] :=
  startWatch_throttle_C1.1 20000 25000 [31000] (by decide)

/-- C2: the ingestion request body built by `send` carries exactly the
fields `lat`, `lon` and (when the sensor reported a numeric accuracy)
`acc`; it never carries a client timestamp field. -/
theorem send_body_C2 :
    ∀ lat lon acc,
      ((sendForm lat lon acc).map Prod.fst =
        ["lat", "lon"] ++ (if acc.isSome then ["acc"] else [])) ∧
      "ts" ∉ (sendForm lat lon acc).map Prod.fst ∧
      "timestamp" ∉ (sendForm lat lon acc).map Prod.fst := by
  intro lat lon acc
  cases acc <;> simp [sendForm]

/-- C3 (spec-modelled): `classify` returns `fresh` for ages at most
`T_fresh`, `stale` for ages in `(T_fresh, T_offline]`, `offline` for ages
beyond `T_offline`, and never moves backward as the age grows. -/
theorem classify_C3 :
    ∀ Tfresh Toffline now t,
      (now - t ≤ Tfresh → classify Tfresh Toffline now t = Status.fresh) ∧
      (Tfresh < now - t → now - t ≤ Toffline →
        classify Tfresh Toffline now t = Status.stale) ∧
      (Tfresh ≤ Toffline → Toffline < now - t →
        classify Tfresh Toffline now t = Status.offline) ∧
      (∀ now' t', now - t ≤ now' - t' →
        statusRank (classify Tfresh Toffline now t) ≤
          statusRank (classify Tfresh Toffline now' t')) := by
  intro Tf To now t
  refine ⟨?_, ?_, ?_, ?_⟩
  · intro h
    rw [classify, if_pos h]
  · intro h1 h2
    rw [classify, if_neg (by omega), if_pos h2]
  · intro h1 h2
    rw [classify, if_neg (by omega), if_neg (by omega)]
  · intro now' t' h
    rw [classify, classify]
    split_ifs <;> simp [statusRank] <;> omega

/-- Witness for C3: with `T_fresh = 30`, `T_offline = 120` an age of 50
classifies as stale. -/
theorem classify_C3_witness :
    classify 30 120 1000 950 = Status.stale :=
  (classify_C3 30 120 1000 950).2.1 (by decide) (by decide)

/-- C4: the reporting path surfaces no error — `send` returns normally on
any fetch outcome, the geolocation error callback changes nothing, and
`startWatch` without geolocation support registers no watch and returns. -/
theorem silent_degradation_C4 :
    (∀ r, sendResult r = Except.ok ()) ∧
    (∀ err watchId lastSent,
      geoErrorCallback err watchId lastSent = (watchId, lastSent)) ∧
    (∀ watchId newId, startWatch false watchId newId = watchId) := by
  refine ⟨?_, ?_, ?_⟩
  · intro r; cases r <;> rfl
  · intro err w l; rfl
  · intro w n; rfl

/-- `latlngs[latlngs.length - 1]` is the last element of a nonempty list. -/
theorem lastPoint_getLastQ :
    ∀ (ps : List TrackPoint) (p : TrackPoint),
      (p :: ps).getLast? = some (lastPoint p ps) := by
  intro ps
  induction ps with
  | nil => intro p; rfl
  | cons q rest ih =>
    intro p
    rw [List.getLast?_cons_cons]
    simpa [lastPoint] using ih q

/-- After removing an identity's marker, looking that identity up on the
map yields nothing. -/
theorem lookup_removeMarker_self (id : String) :
    ∀ ms : List (String × (Int × Int)),
      List.lookup id (removeMarker id ms) = none := by
  intro ms
  induction ms with
  | nil => rfl
  | cons m rest ih =>
    obtain ⟨k, v⟩ := m
    by_cases h : k = id
    · subst h
      simpa [removeMarker, List.filter_cons] using ih
    · have hb : (k != id) = true := bne_iff_ne.mpr h
      have hb2 : (id == k) = false := beq_eq_false_iff_ne.mpr (Ne.symm h)
      simpa [removeMarker, List.filter_cons, hb, List.lookup, hb2] using ih

/-- Removing one identity's marker leaves every other identity's marker
lookup unchanged. -/
theorem lookup_removeMarker_other (id id' : String) (h : id' ≠ id) :
    ∀ ms : List (String × (Int × Int)),
      List.lookup id' (removeMarker id ms) = List.lookup id' ms := by
  intro ms
  induction ms with
  | nil => rfl
  | cons m rest ih =>
    obtain ⟨k, v⟩ := m
    by_cases hk : k = id
    · subst hk
      have hb2 : (id' == k) = false := beq_eq_false_iff_ne.mpr h
      simpa [removeMarker, List.filter_cons, List.lookup, hb2] using ih
    · have hb : (k != id) = true := bne_iff_ne.mpr hk
      by_cases he : id' = k
      · subst he
        simp [removeMarker, List.filter_cons, hb, List.lookup]
      · have hb2 : (id' == k) = false := beq_eq_false_iff_ne.mpr he
        simpa [removeMarker, List.filter_cons, hb, List.lookup, hb2] using ih

/-- C5: on a non-empty track response, `showTrack` draws a polyline whose
vertices are exactly the returned (lat, lon) pairs in returned order and
places the identity's marker at the last returned point. -/
theorem showTrack_draws_C5 :
    ∀ id points st, points ≠ [] →
      (showTrack id points st).polyline =
        some (points.map fun p => (p.lat, p.lon)) ∧
      ∃ last, points.getLast? = some last ∧
        List.lookup id (showTrack id points st).markers =
          some (last.lat, last.lon) := by
  intro id points st h
  match points with
  | [] => exact absurd rfl h
  | p :: ps =>
    refine ⟨rfl, lastPoint p ps, lastPoint_getLastQ ps p, ?_⟩
    simp [showTrack, List.lookup]

/-- Witness for C5 on a two-point track. -/
theorem showTrack_draws_C5_witness :
    (showTrack "E1" [⟨1, 2⟩, ⟨3, 4⟩] ⟨none, []⟩).polyline =
      some (([⟨1, 2⟩, ⟨3, 4⟩] : List TrackPoint).map fun p => (p.lat, p.lon)) ∧
    ∃ last, ([⟨1, 2⟩, ⟨3, 4⟩] : List TrackPoint).getLast? = some last ∧
      List.lookup "E1" (showTrack "E1" [⟨1, 2⟩, ⟨3, 4⟩] ⟨none, []⟩).markers =
        some (last.lat, last.lon) :=
  showTrack_draws_C5 "E1" [⟨1, 2⟩, ⟨3, 4⟩] ⟨none, []⟩ (by decide)

/-- C10: `showTrack` on an empty response clears the polyline and the
selected identity's marker while leaving other identities' markers
untouched. -/
theorem showTrack_clears_C10 :
    ∀ id st id',
      (showTrack id [] st).polyline = none ∧
      List.lookup id (showTrack id [] st).markers = none ∧
      (id' ≠ id →
        List.lookup id' (showTrack id [] st).markers =
          List.lookup id' st.markers) := by
  intro id st id'
  refine ⟨rfl, ?_, ?_⟩
  · simpa [showTrack] using lookup_removeMarker_self id st.markers
  · intro h
    simpa [showTrack] using lookup_removeMarker_other id id' h st.markers

/-- Witness for C10: clearing E1's empty track leaves E2's marker as it
was. -/
theorem showTrack_clears_C10_witness :
    List.lookup "E2"
        (showTrack "E1" []
          ⟨some [((1 : Int), (2 : Int))],
            [("E1", ((1 : Int), (2 : Int))), ("E2", (3, 4))]⟩).markers =
      List.lookup "E2"
        (⟨some [((1 : Int), (2 : Int))],
          [("E1", ((1 : Int), (2 : Int))), ("E2", (3, 4))]⟩ : MapState).markers :=
  (showTrack_clears_C10 "E1"
    ⟨some [(1, 2)], [("E1", (1, 2)), ("E2", (3, 4))]⟩ "E2").2.2 (by decide)

/-- C6: `applyFilters` keeps exactly the entries matching the selected
status (everything for 'all') and containing the lowercased trimmed
search text in their lowercased id (everything for an empty search), and
returns a sublist of its input without altering any entry. -/
theorem applyFilters_C6 :
    ∀ status search items (e : Emp),
      (applyFilters status search items).Sublist items ∧
      (e ∈ applyFilters status search items ↔
        e ∈ items ∧ (status = "all" ∨ e.fresh_status = status) ∧
          (jsToLower (jsTrim search) = "" ∨
            (jsToLower (jsTrim search)).data <:+: (jsToLower e.employee_id).data)) := by
  intro status search items e
  constructor
  · exact List.filter_sublist items
  · simp [applyFilters, List.mem_filter, jsIncludes, Bool.and_eq_true,
      Bool.or_eq_true, beq_iff_eq, decide_eq_true_eq]

/-- C7: with no numeric accuracy, `send`'s body has no `acc` field, and
`renderList` displays an absent `last_accuracy` as 0 meters. -/
theorem accuracy_C7 :
    (∀ lat lon, "acc" ∉ (sendForm lat lon none).map Prod.fst) ∧
    renderedAccuracy none = 0 := by
  constructor
  · intro lat lon
    simp [sendForm]
  · rfl

/-- C8: the list dashboard polls every 15 s, the map dashboard every
10 s — both within the recommended 10–15 s — and every request issued by
a polling tick is a GET. -/
theorem polling_C8 :
    listDashboardPollIntervalMs = 15000 ∧
    mapDashboardPollIntervalMs = 10000 ∧
    (10000 ≤ listDashboardPollIntervalMs ∧ listDashboardPollIntervalMs ≤ 15000) ∧
    (10000 ≤ mapDashboardPollIntervalMs ∧ mapDashboardPollIntervalMs ≤ 15000) ∧
    ∀ r ∈ listDashboardPollRequests ++ mapDashboardPollRequests,
      r.method = "GET" := by
  decide

/-- C9: a non-OK roster response makes `fetchEmployees` return an empty
list, so `refresh` renders the same empty state as a genuinely empty
roster; only a thrown fetch or a JSON-parse failure reaches the error
banner. -/
theorem fetchEmployees_non_ok_C9 :
    ∀ status search json msg,
      fetchEmployees (FetchOutcome.resp false json) = Except.ok [] ∧
      refreshView (FetchOutcome.resp false json) status search = View.emptyState ∧
      refreshView (FetchOutcome.resp false json) status search =
        refreshView (FetchOutcome.resp true (Except.ok [])) status search ∧
      refreshView (FetchOutcome.netFail msg) status search = View.errorBanner ∧
      refreshView (FetchOutcome.resp true (Except.error msg)) status search =
        View.errorBanner := by
  intro status search json msg
  exact ⟨rfl, rfl, rfl, rfl, rfl⟩

end TGWebApp
